import Mathlib

/-!
Shallow embedding of the CDRChat server (src/server.py, src/agent.py) —
a FastAPI orchestration server streaming a BigQuery LLM agent's events —
together with theorems settling the frozen claims about its specification.

The embedding follows the source: Python `None`-able fields become `Option`,
Python truthiness of a string is `≠ ""`, the `or 0` coercion becomes
`Option.getD 0`, the SSE generator becomes a pure function from the runtime
feed (a list of raw events plus an optional exception raised by the feed)
to the list of outbound events.
-/

namespace CDRChat

/-! ## Data model: raw runtime events (google.genai / ADK shapes used by server.py) -/

/-- One content part of a raw runtime event (`types.Part` as consumed in
`event_stream`): an optional text fragment and an optional function call,
the latter carrying the tool's name (`fn.name`). -/
structure Part where
  text : Option String
  function_call : Option String
  deriving DecidableEq, Repr

/-- Usage metadata of a raw event. Both counters are nullable
(`prompt_token_count` / `candidates_token_count` may be `None`). -/
structure UsageMetadata where
  prompt_token_count : Option Nat
  candidates_token_count : Option Nat
  deriving DecidableEq, Repr

/-- One raw event yielded by `runner.run_async`. `usage_metadata` and
`content` are nullable attributes of the ADK event model; `content`, when
present, carries a list of parts. -/
structure RawEvent where
  usage_metadata : Option UsageMetadata
  content : Option (List Part)
  deriving DecidableEq, Repr

/-- The runtime feed consumed by one turn: the raw events the async
generator yields, and, when `err = some m`, an exception with message `m`
(`str(e)`) raised by the generator after those events. -/
structure Feed where
  events : List RawEvent
  err : Option String
  deriving DecidableEq, Repr

/-! ## Outbound (wire-level) events -/

/-- The discriminated union of outbound SSE records emitted by
`event_stream`: `{'type': 'session'|'text'|'tool'|'error'|'done', ...}`. -/
inductive OutboundEvent where
  | session (session_id : String)
  | text (content : String)
  | tool (name : String)
  | error (content : String)
  | done (duration : ℚ) (input_tokens : Nat) (output_tokens : Nat)
  deriving DecidableEq, Repr

def OutboundEvent.isSession : OutboundEvent → Bool
  | .session _ => true
  | _ => false

def OutboundEvent.isDone : OutboundEvent → Bool
  | .done _ _ _ => true
  | _ => false

def OutboundEvent.isError : OutboundEvent → Bool
  | .error _ => true
  | _ => false

def OutboundEvent.isText : OutboundEvent → Bool
  | .text _ => true
  | _ => false

def OutboundEvent.isTool : OutboundEvent → Bool
  | .tool _ => true
  | _ => false

/-! ## The streaming event translator (`event_stream` in server.py) -/

/-- Token-counter update for one raw event (server.py lines 160–165).
The ADK event model always has a `usage_metadata` attribute, possibly
`None`; when it is an object, both counter attributes exist, possibly
`None`, and Python's `x or 0` coerces `None` (and `0`) to `0`. -/
def updateTokens (input_tokens output_tokens : Nat) (e : RawEvent) : Nat × Nat :=
  match e.usage_metadata with
  | none => (input_tokens, output_tokens)
  | some u => (u.prompt_token_count.getD 0, u.candidates_token_count.getD 0)

/-- The text fragments of a raw event in content order: first pass of
server.py lines 167–170. Python truthiness `part.text` keeps only parts
whose text is present and non-empty. -/
def textFragments (e : RawEvent) : List String :=
  match e.content with
  | none => []
  | some parts => parts.filterMap fun p =>
      match p.text with
      | some t => if t = "" then none else some t
      | none => none

/-- The tool names of a raw event in content order: second pass of
server.py lines 172–177. Python truthiness of a `FunctionCall` object is
its presence; the emitted name is `fn.name`. -/
def toolNames (e : RawEvent) : List String :=
  match e.content with
  | none => []
  | some parts => parts.filterMap fun p => p.function_call

/-- The outbound events `event_stream` emits for one raw event: a text
event per (truthy) text fragment, then a tool event per function call —
two independent passes over the same `content.parts`. -/
def perEventOutput (e : RawEvent) : List OutboundEvent :=
  (textFragments e).map .text ++ (toolNames e).map .tool

/-- The body of the `async for` loop of `event_stream` folded over the
raw events already yielded: returns the emitted middle events and the
final token counters. -/
def streamLoop : List RawEvent → Nat → Nat → List OutboundEvent × Nat × Nat
  | [], i, o => ([], i, o)
  | e :: rest, i, o =>
    let p := updateTokens i o e
    let r := streamLoop rest p.1 p.2
    (perEventOutput e ++ r.1, r.2)

/-- `round(d, 2)` — the elapsed duration rounded to 2 decimal places,
modelled over ℚ with Mathlib's `round` (the claims do not depend on
floating-point tie behaviour). -/
def round2 (d : ℚ) : ℚ := (round (d * 100) : ℤ) / 100

/-- The `except Exception as e` clause of `event_stream`: one `error`
event carrying `str(e)` when the feed raised, nothing otherwise. -/
def errorEvents : Option String → List OutboundEvent
  | none => []
  | some m => [.error m]

/-- The full outbound sequence of one turn (server.py lines 147–183):
a `session` event first; the translated raw events; when the feed raised,
one `error` event carrying the exception's message; and a final `done`
event with the rounded duration and the final token counters. Counters
start at 0; `duration` is the elapsed wall-clock time measured by the
generator. -/
def event_stream (session_id : String) (feed : Feed) (duration : ℚ) :
    List OutboundEvent :=
  OutboundEvent.session session_id ::
    ((streamLoop feed.events 0 0).1 ++
      (errorEvents feed.err ++
        [OutboundEvent.done (round2 duration) (streamLoop feed.events 0 0).2.1
          (streamLoop feed.events 0 0).2.2]))

/-- Final input-token counter of a feed, as reported in `done`. -/
def finalInputTokens (feed : Feed) : Nat := (streamLoop feed.events 0 0).2.1

/-- Final output-token counter of a feed, as reported in `done`. -/
def finalOutputTokens (feed : Feed) : Nat := (streamLoop feed.events 0 0).2.2

/-! ## Agent factory (src/agent.py) -/

/-- The configuration of the `LlmAgent` built by `create_bigquery_agent`:
the OAuth token and project the BigQuery toolset is bound to, the optional
default dataset, and the model id. The natural-language instruction is
configuration text derived from these same fields and is not separately
modelled. -/
structure Agent where
  access_token : String
  project_id : String
  default_dataset : Option String
  model : String
  deriving DecidableEq, Repr

/-- `create_bigquery_agent` (src/agent.py lines 11–79): pure construction
of an agent configured with the caller's token, project and optional
dataset; the default model id is `gemini-3-pro-preview`. -/
def create_bigquery_agent (access_token : String) (project_id : String)
    (default_dataset : Option String) : Agent :=
  { access_token := access_token
    project_id := project_id
    default_dataset := default_dataset
    model := "gemini-3-pro-preview" }

/-! ## Session registry (server.py) -/

/-- A `Runner` binds one agent to the shared session service under a fixed
app name (server.py lines 126–130). -/
structure Runner where
  agent : Agent
  app_name : String
  deriving DecidableEq, Repr

/-- A session object created by the session service; only its id is
observed by the server. -/
structure Session where
  id : String
  deriving DecidableEq, Repr

/-- One value of `active_runners`: the dict literal of server.py
lines 136–140. -/
structure SessionEntry where
  runner : Runner
  session : Session
  project_id : String
  deriving DecidableEq, Repr

/-- The process-wide mutable state: `active_runners` (session id → entry)
and the set of session ids held inside the `InMemorySessionService`. -/
structure ServerState where
  active_runners : List (String × SessionEntry)
  session_service : List String
  deriving DecidableEq, Repr

/-- The hit test of server.py line 116: `if session_id and session_id in
active_runners` — Python truthiness rejects `None` and the empty string. -/
def registryHit (st : ServerState) (session_id : Option String) :
    Option (String × SessionEntry) :=
  match session_id with
  | none => none
  | some sid =>
    if sid = "" then none
    else match st.active_runners.lookup sid with
      | some entry => some (sid, entry)
      | none => none

/-- The get-or-create step of the submit-turn handler (server.py lines
116–140): on a registry hit the existing entry is used and the state is
untouched; otherwise a new agent, runner and session are created (`fresh`
is the unique id the session service generates), and the entry is
registered. Returns the resolved session id, the entry for this turn, and
the new state. -/
def resolveOrCreate (st : ServerState) (token : String) (project_id : String)
    (dataset : Option String) (session_id : Option String) (fresh : String) :
    String × SessionEntry × ServerState :=
  match registryHit st session_id with
  | some (sid, entry) => (sid, entry, st)
  | none =>
    let agent := create_bigquery_agent token project_id dataset
    let runner : Runner := { agent := agent, app_name := "bigquery_agent" }
    let session : Session := { id := fresh }
    let entry : SessionEntry :=
      { runner := runner, session := session, project_id := project_id }
    (fresh, entry,
      { active_runners := (fresh, entry) :: st.active_runners
        session_service := fresh :: st.session_service })

/-- `reset_session` (server.py lines 188–195): when the id is truthy and
present, the entry is deleted from `active_runners`; the session service
is not touched (no `delete_session` call exists in the source). -/
def reset_session (st : ServerState) (session_id : Option String) : ServerState :=
  match session_id with
  | none => st
  | some sid =>
    if sid = "" then st
    else { st with active_runners := st.active_runners.filter fun p => p.1 != sid }

/-! ## The submit-turn handler's pre-stream phase (server.py lines 100–145) -/

/-- Python `str.strip()` whitespace, ASCII range: space, tab, LF, CR,
vertical tab, form feed. -/
def isPySpace (c : Char) : Bool :=
  c == ' ' || c == '\t' || c == '\n' || c == '\r' || c == '\x0b' || c == '\x0c'

/-- Python `s.strip()`: drop leading and trailing whitespace. -/
def pyStrip (s : String) : String :=
  ⟨((s.data.dropWhile isPySpace).reverse.dropWhile isPySpace).reverse⟩

/-- Outcome of the pre-stream phase of the `query` handler: either an
immediate JSON error response, or the streaming phase entered with the
resolved session id and entry. -/
inductive QueryResult where
  | badRequest (error : String) (status_code : Nat)
  | stream (session_id : String) (entry : SessionEntry)
  deriving DecidableEq, Repr

/-- The `query` handler up to the start of streaming (server.py lines
100–145): strip the message, validate non-emptiness of message and
project id, then resolve or create the session entry. `message`,
`project_id`, `dataset` and `session_id` are the four `body.get` fields
(absent = `none`); `fresh` is the session id the service would generate
on a create. Returns the result and the registry state after the call. -/
def query (st : ServerState) (token : String) (message : Option String)
    (project_id : Option String) (dataset : Option String)
    (session_id : Option String) (fresh : String) : QueryResult × ServerState :=
  let user_message := pyStrip (message.getD "")
  if user_message = "" then (.badRequest "Empty message" 400, st)
  else
    match project_id with
    | none => (.badRequest "No project_id specified" 400, st)
    | some pid =>
      if pid = "" then (.badRequest "No project_id specified" 400, st)
      else
        let r := resolveOrCreate st token pid dataset session_id fresh
        (.stream r.1 r.2.1, r.2.2)

/-! ## Discovery gateway (server.py lines 50–97) -/

/-- One project record of the Cloud Resource Manager response. `name` and
`projectNumber` are optional JSON fields (`p.get`). -/
structure RawProject where
  projectId : String
  name : Option String
  projectNumber : Option Nat
  deriving DecidableEq, Repr

/-- One entry of the `{"projects": [...]}` response body. -/
structure ProjectOut where
  id : String
  name : String
  number : Option Nat
  deriving DecidableEq, Repr

/-- One dataset record of the BigQuery response:
`d["datasetReference"]["datasetId"]`. -/
structure RawDataset where
  datasetId : String
  deriving DecidableEq, Repr

/-- Python string comparison (`<` / `sort()` order on `str`): code-point
lexicographic. The embedding compares the character lists, which is that
same order. -/
def pyStrLE (a b : String) : Prop := a.data ≤ b.data

instance : DecidableRel pyStrLE := fun a b =>
  inferInstanceAs (Decidable (a.data ≤ b.data))

instance : IsTotal String pyStrLE := ⟨fun a b => le_total a.data b.data⟩

instance : IsTrans String pyStrLE := ⟨fun _ _ _ => le_trans⟩

/-- Python `str.lower()`: character-wise lowering of the string. -/
def strLower (s : String) : String := ⟨s.data.map Char.toLower⟩

/-- The sort key order of `list_projects`: `key=lambda p: p["name"].lower()`. -/
def projectNameLE (a b : ProjectOut) : Prop := pyStrLE (strLower a.name) (strLower b.name)

instance : DecidableRel projectNameLE := fun a b =>
  inferInstanceAs (Decidable (pyStrLE (strLower a.name) (strLower b.name)))

instance : IsTotal ProjectOut projectNameLE :=
  ⟨fun a b => le_total (strLower a.name).data (strLower b.name).data⟩

instance : IsTrans ProjectOut projectNameLE :=
  ⟨fun _ _ _ => le_trans (α := List Char)⟩

/-- A non-2xx upstream response surfaced as a `fastapi.HTTPException`. -/
structure HTTPError where
  status_code : Nat
  detail : String
  deriving DecidableEq, Repr

/-- An upstream HTTP response: status code and raw body text. The parsed
JSON payload, when the endpoint reads it, is passed separately. -/
structure UpstreamResponse where
  status_code : Nat
  text : String
  deriving DecidableEq, Repr

/-- The distinct insufficient-scope detail of server.py lines 62–66. -/
def scopeErrorDetail : String :=
  "Token lacks project listing permissions. Ensure cloudresourcemanager.readonly scope."

/-- The response-body construction of `list_projects` (server.py lines
71–77): map each raw project to `{id, name, number}` with the display name
defaulting to the project id, then sort stably by the lowered name. Python
`list.sort` is stable, and a stable sort is uniquely determined by its key
order, so insertion sort models it exactly. -/
def list_projects_body (ps : List RawProject) : List ProjectOut :=
  List.insertionSort projectNameLE
    (ps.map fun p =>
      { id := p.projectId, name := p.name.getD p.projectId, number := p.projectNumber })

/-- `list_projects` (server.py lines 50–77): 403 becomes the distinct
insufficient-scope error; any other non-200 is surfaced with its status
and body text; on 200 the sorted project list is returned. -/
def list_projects (resp : UpstreamResponse) (payload : List RawProject) :
    Except HTTPError (List ProjectOut) :=
  if resp.status_code = 403 then .error ⟨403, scopeErrorDetail⟩
  else if resp.status_code ≠ 200 then .error ⟨resp.status_code, resp.text⟩
  else .ok (list_projects_body payload)

/-- `list_datasets` (server.py lines 80–97): any non-200 (including 403)
is surfaced with its status and body text; on 200 the dataset ids are
sorted with `datasets.sort()` — plain case-sensitive string order. -/
def list_datasets (resp : UpstreamResponse) (payload : List RawDataset) :
    Except HTTPError (List String) :=
  if resp.status_code ≠ 200 then .error ⟨resp.status_code, resp.text⟩
  else .ok (List.insertionSort pyStrLE (payload.map RawDataset.datasetId))

/-! ## Concurrency model for the turn-execution phase

The submit-turn handler consumes `runner.run_async(...)` with `async for`;
every iteration awaits the runtime, so the asyncio scheduler may switch to
another request task between any two iterations. The handler takes no lock
of any kind (server.py lines 100–185 contain no synchronization
construct), so when two requests resolve to the same session entry, every
interleaving of their iteration steps is a schedule the server admits. -/

/-- One atomic step of a turn execution: request task `task`'s `step`-th
iteration of the runtime's event feed, mutating the shared conversation
state of the session both requests resolved to. -/
structure TurnStep where
  task : Nat
  step : Nat
  deriving DecidableEq, Repr

/-- The steps `k, k+1, …, k+n-1` of task `task`. -/
def turnStepsFrom (task : Nat) : Nat → Nat → List TurnStep
  | _, 0 => []
  | k, n + 1 => ⟨task, k⟩ :: turnStepsFrom task (k + 1) n

/-- The `n` runtime-iteration steps of request task `task`'s turn. -/
def turnSteps (task : Nat) (n : Nat) : List TurnStep := turnStepsFrom task 0 n

/-- `Interleaving xs ys zs`: `zs` is an order-preserving merge of `xs`
and `ys`. -/
inductive Interleaving : List TurnStep → List TurnStep → List TurnStep → Prop
  | nil : Interleaving [] [] []
  | left {x xs ys zs} : Interleaving xs ys zs → Interleaving (x :: xs) ys (x :: zs)
  | right {y xs ys zs} : Interleaving xs ys zs → Interleaving xs (y :: ys) (y :: zs)

/-- The schedules the server admits for two concurrent turns against the
same session entry: with no per-entry lock in the handler, every
interleaving of the two turns' steps is admissible. -/
def admissibleSchedule (a b sched : List TurnStep) : Prop := Interleaving a b sched

/-- A schedule serializes the two turns when one turn's steps all run
before the other's. -/
def Serialized (a b sched : List TurnStep) : Prop :=
  sched = a ++ b ∨ sched = b ++ a

/-! ## Spec-side definitions (from the claims' words, for comparison) -/

/-- Spec-side, from C3's words (not from the source): the latest non-null
`prompt_token_count` seen across the feed; a null value does not overwrite
a previously seen non-null value. -/
def specLatestPromptTokens (events : List RawEvent) : Option Nat :=
  events.foldl
    (fun acc e =>
      match e.usage_metadata with
      | none => acc
      | some u =>
        match u.prompt_token_count with
        | none => acc
        | some v => some v)
    none

/-- Spec-side, from C8's words (not from the source): dataset ids ordered
by their lowered string. -/
def specDatasetLE (a b : String) : Prop := pyStrLE (strLower a) (strLower b)

instance : DecidableRel specDatasetLE := fun a b =>
  inferInstanceAs (Decidable (pyStrLE (strLower a) (strLower b)))

/-- Spec-side, from C8's words: dataset ids sorted case-insensitively. -/
def specSortDatasetsCI (ds : List String) : List String :=
  List.insertionSort specDatasetLE ds

/-- The usage metadata of the last usage-carrying raw event of a feed, if
any: the value the `done` counters are determined by. -/
def lastUsage (events : List RawEvent) : Option UsageMetadata :=
  (events.reverse.find? fun e => e.usage_metadata.isSome).bind RawEvent.usage_metadata

/-! ## Helper lemmas -/

theorem perEventOutput_textOrTool (e : RawEvent) :
    ∀ ev ∈ perEventOutput e, ev.isText = true ∨ ev.isTool = true := by
  intro ev hev
  rcases List.mem_append.1 hev with h | h
  · rcases List.mem_map.1 h with ⟨t, _, rfl⟩
    exact Or.inl rfl
  · rcases List.mem_map.1 h with ⟨t, _, rfl⟩
    exact Or.inr rfl

theorem streamLoop_cons (e : RawEvent) (rest : List RawEvent) (i o : Nat) :
    streamLoop (e :: rest) i o =
      (perEventOutput e ++ (streamLoop rest (updateTokens i o e).1 (updateTokens i o e).2).1,
        (streamLoop rest (updateTokens i o e).1 (updateTokens i o e).2).2) := rfl

theorem streamLoop_fst (l : List RawEvent) :
    ∀ i o, (streamLoop l i o).1 = l.flatMap perEventOutput := by
  induction l with
  | nil => intro i o; rfl
  | cons e rest ih =>
    intro i o
    rw [streamLoop_cons]
    show perEventOutput e ++ (streamLoop rest _ _).1 = _
    rw [ih, List.flatMap_cons]

theorem streamLoop_mid_textOrTool (l : List RawEvent) :
    ∀ i o, ∀ ev ∈ (streamLoop l i o).1, ev.isText = true ∨ ev.isTool = true := by
  induction l with
  | nil =>
    intro i o ev hev
    simp [streamLoop] at hev
  | cons e rest ih =>
    intro i o ev hev
    rw [streamLoop_cons] at hev
    rcases List.mem_append.1 hev with h | h
    · exact perEventOutput_textOrTool e ev h
    · exact ih _ _ ev h

theorem midOnly_flags (ev : OutboundEvent) (h : ev.isText = true ∨ ev.isTool = true) :
    ev.isSession = false ∧ ev.isDone = false ∧ ev.isError = false := by
  rcases h with h | h <;> cases ev <;>
    simp_all [OutboundEvent.isText, OutboundEvent.isTool, OutboundEvent.isSession,
      OutboundEvent.isDone, OutboundEvent.isError]

theorem lastUsage_cons (e : RawEvent) (rest : List RawEvent) :
    lastUsage (e :: rest) = (lastUsage rest).or e.usage_metadata := by
  unfold lastUsage
  rw [List.reverse_cons, List.find?_append]
  rcases hfind : rest.reverse.find? (fun e => e.usage_metadata.isSome) with _ | u
  · rcases hu : e.usage_metadata with _ | v <;>
      simp [List.find?, hfind, hu, Option.none_or]
  · have hsome := List.find?_some hfind
    rcases hu : u.usage_metadata with _ | v
    · simp [hu] at hsome
    · simp [hfind, hu, Option.or_some]

theorem streamLoop_snd (l : List RawEvent) :
    ∀ i o, (streamLoop l i o).2 =
      match lastUsage l with
      | none => (i, o)
      | some u => (u.prompt_token_count.getD 0, u.candidates_token_count.getD 0) := by
  induction l with
  | nil => intro i o; rfl
  | cons e rest ih =>
    intro i o
    rw [streamLoop_cons]
    show (streamLoop rest (updateTokens i o e).1 (updateTokens i o e).2).2 = _
    rw [ih, lastUsage_cons]
    rcases h : lastUsage rest with _ | u
    · rcases hu : e.usage_metadata with _ | v <;> simp [updateTokens, hu, Option.or]
    · simp [Option.or]

theorem event_stream_eq (sid : String) (feed : Feed) (d : ℚ) :
    event_stream sid feed d =
      .session sid :: ((streamLoop feed.events 0 0).1 ++
        (errorEvents feed.err ++
          [.done (round2 d) (finalInputTokens feed) (finalOutputTokens feed)])) := rfl

theorem getLast?_cons_append_concat {α : Type} (a : α) (l1 l2 : List α) (x : α) :
    (a :: (l1 ++ (l2 ++ [x]))).getLast? = some x := by
  rw [show a :: (l1 ++ (l2 ++ [x])) = (a :: (l1 ++ l2)) ++ [x] by simp]
  exact List.getLast?_concat _

theorem filter_map_const_true {α : Type} (f : α → OutboundEvent)
    (p : OutboundEvent → Bool) (hp : ∀ x, p (f x) = true) :
    ∀ l : List α, (l.map f).filter p = l.map f := by
  intro l
  induction l with
  | nil => rfl
  | cons a l ih => simp [List.filter_cons, hp, ih]

theorem filter_map_const_false {α : Type} (f : α → OutboundEvent)
    (p : OutboundEvent → Bool) (hp : ∀ x, p (f x) = false) :
    ∀ l : List α, (l.map f).filter p = [] := by
  intro l
  induction l with
  | nil => rfl
  | cons a l ih => simp [List.filter_cons, hp, ih]

theorem registryHit_hit (st : ServerState) (sid : String) (entry : SessionEntry)
    (hsid : sid ≠ "") (hlook : st.active_runners.lookup sid = some entry) :
    registryHit st (some sid) = some (sid, entry) := by
  show (if sid = "" then none
    else match st.active_runners.lookup sid with
      | some entry => some (sid, entry)
      | none => none) = some (sid, entry)
  rw [if_neg hsid, hlook]

theorem streamLoop_countP_zero (l : List RawEvent) (p : OutboundEvent → Bool)
    (hp : ∀ ev, (ev.isText = true ∨ ev.isTool = true) → p ev = false) :
    (streamLoop l 0 0).1.countP p = 0 :=
  List.countP_eq_zero.2 fun ev hev => by
    simp [hp ev (streamLoop_mid_textOrTool l 0 0 ev hev)]

/-! ## Claims about the streaming event translator -/

/-- C1: for every submit-turn request reaching the streaming phase, the
outbound sequence begins with exactly one `session` event carrying the
resolved session id and ends with exactly one `done` event carrying the
duration rounded to 2 decimal places and the final token counters — for
every feed, failing or not, even with zero content events. -/
theorem stream_session_first_done_last (sid : String) (feed : Feed) (d : ℚ) :
    (event_stream sid feed d).head? = some (.session sid) ∧
    (event_stream sid feed d).getLast? =
      some (.done (round2 d) (finalInputTokens feed) (finalOutputTokens feed)) ∧
    (event_stream sid feed d).countP (fun ev => ev.isSession) = 1 ∧
    (event_stream sid feed d).countP (fun ev => ev.isDone) = 1 := by
  obtain ⟨events, err⟩ := feed
  refine ⟨rfl, ?_, ?_, ?_⟩
  · rw [event_stream_eq]
    exact getLast?_cons_append_concat _ _ _ _
  · have hA := streamLoop_countP_zero events (fun ev => ev.isSession)
      (fun ev h => (midOnly_flags ev h).1)
    rw [event_stream_eq]
    cases err <;>
      · simp only [List.countP_cons, List.countP_append, List.countP_nil, errorEvents]
        rw [hA]
        simp [OutboundEvent.isSession]
  · have hA := streamLoop_countP_zero events (fun ev => ev.isDone)
      (fun ev h => (midOnly_flags ev h).2.1)
    rw [event_stream_eq]
    cases err <;>
      · simp only [List.countP_cons, List.countP_append, List.countP_nil, errorEvents]
        rw [hA]
        simp [OutboundEvent.isDone]

/-- The simulated runtime of C2: two raw events each carrying one text
fragment, after which the feed raises. -/
def twoTextEvents : List RawEvent :=
  [{ usage_metadata := none, content := some [{ text := some "Looking", function_call := none }] },
   { usage_metadata := none, content := some [{ text := some " at data", function_call := none }] }]

/-- C2: when the runtime's feed raises after a prefix of events, the
translator emits the translated prefix, then exactly one `error` event
carrying the exception's message, then the terminal `done` event (the
exception never escapes the stream); for a runtime emitting two text
fragments before raising, the sequence is exactly
session, text, text, error, done. -/
theorem stream_error_absorbed (sid : String) (events : List RawEvent) (m : String) (d : ℚ) :
    event_stream sid ⟨events, some m⟩ d =
      .session sid :: ((streamLoop events 0 0).1 ++
        ([.error m] ++ [.done (round2 d) (finalInputTokens ⟨events, some m⟩)
          (finalOutputTokens ⟨events, some m⟩)])) ∧
    (event_stream sid ⟨events, some m⟩ d).countP (fun ev => ev.isError) = 1 ∧
    (event_stream sid ⟨events, some m⟩ d).getLast? =
      some (.done (round2 d) (finalInputTokens ⟨events, some m⟩)
        (finalOutputTokens ⟨events, some m⟩)) ∧
    event_stream sid ⟨twoTextEvents, some m⟩ d =
      [.session sid, .text "Looking", .text " at data", .error m, .done (round2 d) 0 0] := by
  refine ⟨rfl, ?_, ?_, ?_⟩
  · have hA := streamLoop_countP_zero events (fun ev => ev.isError)
      (fun ev h => (midOnly_flags ev h).2.2)
    rw [event_stream_eq]
    simp only [List.countP_cons, List.countP_append, List.countP_nil, errorEvents]
    rw [hA]
    simp [OutboundEvent.isError]
  · rw [event_stream_eq]
    exact getLast?_cons_append_concat _ _ _ _
  · rfl

/-- The concrete feed refuting C3: a usage event with a non-null prompt
count of 5, then a usage event whose prompt count is null. -/
def c3Feed : Feed :=
  { events :=
      [{ usage_metadata :=
           some { prompt_token_count := some 5, candidates_token_count := some 3 }
         content := none },
       { usage_metadata :=
           some { prompt_token_count := none, candidates_token_count := some 4 }
         content := none }]
    err := none }

/-- C3 counterexample: the latest non-null prompt count across `c3Feed`
is 5, but the translator's final input counter is 0 — the later null
value, coerced by `or 0`, overwrote the earlier non-null value. -/
theorem stream_null_usage_overwrites_cex :
    specLatestPromptTokens c3Feed.events = some 5 ∧
    finalInputTokens c3Feed = 0 ∧
    finalOutputTokens c3Feed = 4 ∧
    finalInputTokens c3Feed ≠ 5 := by
  refine ⟨rfl, rfl, rfl, ?_⟩
  decide

/-- C3 amended: the `done` counters are never summed across events; they
are determined by the last usage-carrying event alone, with Python's
`or 0` coercing a null counter value to 0 — so a null in that last event
overwrites any earlier non-null value with 0 (when no event carries usage
metadata, the counters stay 0). -/
theorem stream_tokens_last_usage_wins (feed : Feed) :
    (finalInputTokens feed, finalOutputTokens feed) =
      match lastUsage feed.events with
      | none => (0, 0)
      | some u => (u.prompt_token_count.getD 0, u.candidates_token_count.getD 0) := by
  have h := streamLoop_snd feed.events 0 0
  unfold finalInputTokens finalOutputTokens
  rw [← h]

/-- C4: per raw event the translator emits one `text` event per (truthy)
text fragment, preserving order, then one `tool` event per function call
in content order — all text events of a raw event before any of its tool
events — and the middle of the stream is exactly the concatenation of
these per-event outputs in feed order. -/
theorem stream_text_before_tool (sid : String) (feed : Feed) (d : ℚ) :
    (∀ e : RawEvent,
      perEventOutput e = (textFragments e).map .text ++ (toolNames e).map .tool ∧
      (perEventOutput e).filter (fun ev => ev.isText) = (textFragments e).map .text ∧
      (perEventOutput e).filter (fun ev => ev.isTool) = (toolNames e).map .tool) ∧
    event_stream sid feed d =
      .session sid :: (feed.events.flatMap perEventOutput ++
        (errorEvents feed.err ++
          [.done (round2 d) (finalInputTokens feed) (finalOutputTokens feed)])) := by
  constructor
  · intro e
    refine ⟨rfl, ?_, ?_⟩
    · show ((textFragments e).map OutboundEvent.text ++
          (toolNames e).map OutboundEvent.tool).filter _ = _
      rw [List.filter_append,
        filter_map_const_true OutboundEvent.text _ (fun _ => rfl),
        filter_map_const_false OutboundEvent.tool _ (fun _ => rfl),
        List.append_nil]
    · show ((textFragments e).map OutboundEvent.text ++
          (toolNames e).map OutboundEvent.tool).filter _ = _
      rw [List.filter_append,
        filter_map_const_false OutboundEvent.text _ (fun _ => rfl),
        filter_map_const_true OutboundEvent.tool _ (fun _ => rfl),
        List.nil_append]
  · rw [event_stream_eq, streamLoop_fst]

/-! ## Claims about the session registry -/

/-- C5: a submit-turn request that supplies a session id present in the
registry gets the existing entry back unchanged and leaves the whole
server state untouched: the originally created runner, session and
project are retained, and the new request's token, project id and dataset
are not written anywhere nor used to build a new agent. -/
theorem session_reuse_unchanged (st : ServerState) (token pid : String)
    (dataset : Option String) (sid : String) (entry : SessionEntry)
    (fresh : String) (msg : String)
    (hsid : sid ≠ "") (hlook : st.active_runners.lookup sid = some entry)
    (hmsg : pyStrip msg ≠ "") (hpid : pid ≠ "") :
    resolveOrCreate st token pid dataset (some sid) fresh = (sid, entry, st) ∧
    query st token (some msg) (some pid) dataset (some sid) fresh =
      (.stream sid entry, st) := by
  have hres : resolveOrCreate st token pid dataset (some sid) fresh = (sid, entry, st) := by
    unfold resolveOrCreate
    rw [registryHit_hit st sid entry hsid hlook]
  refine ⟨hres, ?_⟩
  simp only [query, Option.getD_some]
  rw [if_neg hmsg, if_neg hpid, hres]

/-- Witness for C5 at a concrete registry state. -/
theorem session_reuse_unchanged_witness :
    resolveOrCreate
        { active_runners :=
            [("s1",
              { runner :=
                  { agent := create_bigquery_agent "tok0" "proj0" none
                    app_name := "bigquery_agent" }
                session := { id := "s1" }
                project_id := "proj0" })]
          session_service := ["s1"] }
        "tok1" "proj1" (some "ds1") (some "s1") "s2" =
      ("s1",
        { runner :=
            { agent := create_bigquery_agent "tok0" "proj0" none
              app_name := "bigquery_agent" }
          session := { id := "s1" }
          project_id := "proj0" },
        { active_runners :=
            [("s1",
              { runner :=
                  { agent := create_bigquery_agent "tok0" "proj0" none
                    app_name := "bigquery_agent" }
                session := { id := "s1" }
                project_id := "proj0" })]
          session_service := ["s1"] }) :=
  (session_reuse_unchanged _ "tok1" "proj1" (some "ds1") "s1" _ "s2" "hello"
    (by decide) (by decide) (by decide) (by decide)).1

/-! ## Claims about reset and the registry / session-service correspondence -/

/-- The registry's key space. -/
def registryKeys (st : ServerState) : List String := st.active_runners.map Prod.fst

/-- Every live registry key has a session in the runtime session service. -/
def KeysCovered (st : ServerState) : Prop :=
  ∀ k ∈ registryKeys st, k ∈ st.session_service

/-- The state after creating one session and then resetting it. -/
def c6State : ServerState :=
  reset_session
    (resolveOrCreate { active_runners := [], session_service := [] }
      "tok" "proj" none none "s1").2.2
    (some "s1")

/-- C6 counterexample: create a session, then reset it. The registry
entry is released but the session service still holds the session, so the
two key spaces are not in 1:1 correspondence after the reset. -/
theorem reset_leaves_service_session_cex :
    registryKeys c6State = [] ∧
    c6State.session_service = ["s1"] ∧
    ¬ ("s1" ∈ registryKeys c6State ↔ "s1" ∈ c6State.session_service) := by
  refine ⟨rfl, rfl, ?_⟩
  decide

/-- C6 amended: reset releases only the registry entry — the session
service's key space is untouched (the source never calls `delete_session`)
— so the correspondence is one-sided: every registry key has a service
session (preserved by both create and reset), while the reset id's service
session survives. -/
theorem reset_releases_registry_only (st : ServerState) (sid token pid : String)
    (dataset : Option String) (session_id : Option String) (fresh : String)
    (hsid : sid ≠ "") (hcov : KeysCovered st) :
    (reset_session st (some sid)).session_service = st.session_service ∧
    registryKeys (reset_session st (some sid)) =
      (registryKeys st).filter (fun k => k != sid) ∧
    KeysCovered (reset_session st (some sid)) ∧
    KeysCovered (resolveOrCreate st token pid dataset session_id fresh).2.2 := by
  have hreset : reset_session st (some sid) =
      { st with active_runners := st.active_runners.filter fun p => p.1 != sid } := by
    show (if sid = "" then st
      else { st with active_runners := st.active_runners.filter fun p => p.1 != sid }) = _
    rw [if_neg hsid]
  have hsvc : (reset_session st (some sid)).session_service = st.session_service := by
    rw [hreset]
  have hkeys : registryKeys (reset_session st (some sid)) =
      (registryKeys st).filter (fun k => k != sid) := by
    rw [hreset]
    show (st.active_runners.filter fun p => p.1 != sid).map Prod.fst = _
    rw [registryKeys, List.filter_map]
    rfl
  refine ⟨hsvc, hkeys, ?_, ?_⟩
  · intro k hk
    rw [hkeys] at hk
    rw [hsvc]
    exact hcov k (List.mem_filter.1 hk).1
  · rcases hhit : registryHit st session_id with _ | pair
    · have eqn : (resolveOrCreate st token pid dataset session_id fresh).2.2 =
          { active_runners :=
              (fresh,
                { runner := { agent := create_bigquery_agent token pid dataset
                              app_name := "bigquery_agent" }
                  session := { id := fresh }
                  project_id := pid }) :: st.active_runners
            session_service := fresh :: st.session_service } := by
        unfold resolveOrCreate
        rw [hhit]
      rw [eqn]
      intro k hk
      unfold registryKeys at hk
      simp only [List.map_cons] at hk
      rw [List.mem_cons] at hk
      rcases hk with rfl | hk
      · exact List.mem_cons_self _ _
      · exact List.mem_cons_of_mem _ (hcov k hk)
    · rcases pair with ⟨sid2, entry2⟩
      have eqn : (resolveOrCreate st token pid dataset session_id fresh).2.2 = st := by
        unfold resolveOrCreate
        rw [hhit]
      rw [eqn]
      exact hcov

/-- Witness for C6's amended theorem at a concrete one-entry state. -/
theorem reset_releases_registry_only_witness :
    (reset_session
        { active_runners :=
            [("a",
              { runner :=
                  { agent := create_bigquery_agent "t0" "p0" none
                    app_name := "bigquery_agent" }
                session := { id := "a" }
                project_id := "p0" })]
          session_service := ["a"] }
        (some "a")).session_service =
      ({ active_runners :=
          [("a",
            { runner :=
                { agent := create_bigquery_agent "t0" "p0" none
                  app_name := "bigquery_agent" }
              session := { id := "a" }
              project_id := "p0" })]
         session_service := ["a"] } : ServerState).session_service ∧
    registryKeys (reset_session
        { active_runners :=
            [("a",
              { runner :=
                  { agent := create_bigquery_agent "t0" "p0" none
                    app_name := "bigquery_agent" }
                session := { id := "a" }
                project_id := "p0" })]
          session_service := ["a"] }
        (some "a")) =
      (registryKeys
        { active_runners :=
            [("a",
              { runner :=
                  { agent := create_bigquery_agent "t0" "p0" none
                    app_name := "bigquery_agent" }
                session := { id := "a" }
                project_id := "p0" })]
          session_service := ["a"] }).filter (fun k => k != "a") ∧
    KeysCovered (reset_session
        { active_runners :=
            [("a",
              { runner :=
                  { agent := create_bigquery_agent "t0" "p0" none
                    app_name := "bigquery_agent" }
                session := { id := "a" }
                project_id := "p0" })]
          session_service := ["a"] }
        (some "a")) ∧
    KeysCovered (resolveOrCreate
        { active_runners :=
            [("a",
              { runner :=
                  { agent := create_bigquery_agent "t0" "p0" none
                    app_name := "bigquery_agent" }
                session := { id := "a" }
                project_id := "p0" })]
          session_service := ["a"] }
        "t1" "p1" none none "b").2.2 :=
  reset_releases_registry_only _ "a" "t1" "p1" none none "b" (by decide)
    (by unfold KeysCovered registryKeys; decide)

/-! ## Claim about concurrency of same-session turns -/

/-- The interleaved schedule refuting C7: task 1's first runtime step runs
between task 0's two steps. -/
def badSchedule : List TurnStep := [⟨0, 0⟩, ⟨1, 0⟩, ⟨0, 1⟩, ⟨1, 1⟩]

/-- C7 counterexample: for two concurrent two-step turns against the same
session entry, the interleaved schedule is admissible (there is no
per-entry lock in the handler) and is not serialized. -/
theorem same_session_turns_interleave_cex :
    admissibleSchedule (turnSteps 0 2) (turnSteps 1 2) badSchedule ∧
    ¬ Serialized (turnSteps 0 2) (turnSteps 1 2) badSchedule := by
  constructor
  · show Interleaving [⟨0, 0⟩, ⟨0, 1⟩] [⟨1, 0⟩, ⟨1, 1⟩] badSchedule
    exact .left (.right (.left (.right .nil)))
  · rintro (h | h)
    · exact absurd h (by decide)
    · exact absurd h (by decide)

theorem interleaving_append (xs ys : List TurnStep) : Interleaving xs ys (xs ++ ys) := by
  induction xs with
  | nil =>
    induction ys with
    | nil => exact .nil
    | cons y ys ih => exact .right ih
  | cons x xs ih => exact .left ih

/-- C7 amended: the handler holds no per-entry mutual-exclusion scope, so
concurrent submit-turn calls on the same session id may interleave their
runtime turn executions: for turns of any lengths (≥ 2 and ≥ 1 steps),
some admissible schedule runs the second turn's first step between the
first turn's steps. -/
theorem no_per_session_mutual_exclusion (n m : Nat) :
    ∃ sched, admissibleSchedule (turnSteps 0 (n + 2)) (turnSteps 1 (m + 1)) sched ∧
      ¬ Serialized (turnSteps 0 (n + 2)) (turnSteps 1 (m + 1)) sched := by
  refine ⟨⟨0, 0⟩ :: ⟨1, 0⟩ :: (turnStepsFrom 0 1 (n + 1) ++ turnStepsFrom 1 1 m), ?_, ?_⟩
  · show Interleaving (⟨0, 0⟩ :: turnStepsFrom 0 1 (n + 1))
      (⟨1, 0⟩ :: turnStepsFrom 1 1 m) _
    exact .left (.right (interleaving_append _ _))
  · rintro (h | h)
    · rw [show turnSteps 0 (n + 2) = ⟨0, 0⟩ :: ⟨0, 1⟩ :: turnStepsFrom 0 2 n from rfl] at h
      simp [List.cons_append] at h
    · rw [show turnSteps 1 (m + 1) = ⟨1, 0⟩ :: turnStepsFrom 1 1 m from rfl] at h
      simp [List.cons_append] at h

/-! ## Claims about the discovery gateway -/

/-- C8 counterexample: dataset ids are sorted case-sensitively — for the
upstream payload ["a", "B"] the endpoint returns ["B", "a"], not the
case-insensitively ordered ["a", "B"]. -/
theorem datasets_sort_case_sensitive_cex :
    list_datasets { status_code := 200, text := "" } [⟨"a"⟩, ⟨"B"⟩] = .ok ["B", "a"] ∧
    specSortDatasetsCI ["a", "B"] = ["a", "B"] ∧
    (["B", "a"] : List String) ≠ ["a", "B"] := by
  refine ⟨rfl, rfl, by decide⟩

/-- C8 amended: projects are returned sorted case-insensitively by their
display name; dataset ids are returned sorted in plain case-sensitive
lexicographic order — each a permutation of the upstream payload. -/
theorem discovery_lists_sorted (ps : List RawProject) (ds : List RawDataset)
    (t : String) :
    (∃ body, list_projects { status_code := 200, text := t } ps = .ok body ∧
      List.Sorted projectNameLE body ∧
      body.Perm (ps.map fun p =>
        { id := p.projectId, name := p.name.getD p.projectId, number := p.projectNumber })) ∧
    (∃ ids, list_datasets { status_code := 200, text := t } ds = .ok ids ∧
      List.Sorted pyStrLE ids ∧ ids.Perm (ds.map RawDataset.datasetId)) := by
  refine ⟨⟨list_projects_body ps, rfl, ?_, ?_⟩,
    ⟨List.insertionSort pyStrLE (ds.map RawDataset.datasetId), rfl, ?_, ?_⟩⟩
  · exact List.sorted_insertionSort projectNameLE _
  · exact List.perm_insertionSort projectNameLE _
  · exact List.sorted_insertionSort _ _
  · exact List.perm_insertionSort _ _

/-- C9 counterexample: an upstream 403 on the datasets endpoint is
surfaced verbatim with its body, not mapped to the distinct
insufficient-scope error. -/
theorem datasets_403_verbatim_cex :
    list_datasets { status_code := 403, text := "PERMISSION_DENIED" } [] =
      .error { status_code := 403, detail := "PERMISSION_DENIED" } ∧
    ("PERMISSION_DENIED" : String) ≠ scopeErrorDetail :=
  ⟨rfl, by decide⟩

/-- C9 amended: only the projects endpoint maps an upstream 403 to the
distinct insufficient-scope error; the datasets endpoint surfaces every
non-200 response — 403 included — verbatim with its status and body, and
for any other non-200 status both endpoints surface status and body
verbatim. -/
theorem discovery_error_mapping (s : Nat) (body : String)
    (ps : List RawProject) (ds : List RawDataset)
    (hs200 : s ≠ 200) (hs403 : s ≠ 403) :
    list_projects { status_code := 403, text := body } ps =
      .error ⟨403, scopeErrorDetail⟩ ∧
    list_datasets { status_code := 403, text := body } ds = .error ⟨403, body⟩ ∧
    list_projects { status_code := s, text := body } ps = .error ⟨s, body⟩ ∧
    list_datasets { status_code := s, text := body } ds = .error ⟨s, body⟩ := by
  refine ⟨rfl, rfl, ?_, ?_⟩
  · unfold list_projects
    rw [if_neg hs403, if_pos hs200]
  · unfold list_datasets
    rw [if_pos hs200]

/-- Witness for C9's amended theorem at status 500. -/
theorem discovery_error_mapping_witness :
    list_projects { status_code := 403, text := "oops" } [] =
      .error ⟨403, scopeErrorDetail⟩ ∧
    list_datasets { status_code := 403, text := "oops" } [] = .error ⟨403, "oops"⟩ ∧
    list_projects { status_code := 500, text := "oops" } [] = .error ⟨500, "oops"⟩ ∧
    list_datasets { status_code := 500, text := "oops" } [] = .error ⟨500, "oops"⟩ :=
  discovery_error_mapping 500 "oops" [] [] (by decide) (by decide)

/-! ## Claim about whitespace-only messages -/

theorem pyStrip_eq_empty_of_whitespace (s : String)
    (h : ∀ c ∈ s.data, isPySpace c = true) : pyStrip s = "" := by
  unfold pyStrip
  rw [List.dropWhile_eq_nil_iff.2 h]
  rfl

/-- C10: a submit-turn message consisting only of whitespace characters is
rejected exactly like a truly empty message — HTTP 400 "Empty message",
the server state untouched, before any registry lookup, agent construction
or runner work — because the message is stripped before the check. -/
theorem whitespace_message_rejected (st : ServerState) (token msg : String)
    (project_id : Option String) (dataset : Option String)
    (session_id : Option String) (fresh : String)
    (hws : ∀ c ∈ msg.data, isPySpace c = true) :
    query st token (some msg) project_id dataset session_id fresh =
      (.badRequest "Empty message" 400, st) ∧
    query st token (some msg) project_id dataset session_id fresh =
      query st token (some "") project_id dataset session_id fresh := by
  have h1 : pyStrip msg = "" := pyStrip_eq_empty_of_whitespace msg hws
  have hq : query st token (some msg) project_id dataset session_id fresh =
      (.badRequest "Empty message" 400, st) := by
    unfold query
    simp only [Option.getD_some, h1]
    exact if_pos trivial
  refine ⟨hq, ?_⟩
  rw [hq]
  rfl

/-- Witness for C10 with a whitespace-only message. -/
theorem whitespace_message_rejected_witness :
    query { active_runners := [], session_service := [] } "tok" (some "  \t\n ")
        (some "proj") none none "s1" =
      (.badRequest "Empty message" 400,
        { active_runners := [], session_service := [] }) :=
  (whitespace_message_rejected { active_runners := [], session_service := [] }
    "tok" "  \t\n " (some "proj") none none "s1" (by decide)).1

end CDRChat
